import Mathlib

set_option maxRecDepth 8000

/-!
Shallow embedding of the multi-chat turn-taking core: the conversation memory
(`src/services/chat/conversationMemory.js`), the TTS service
(`src/services/ai/ttsService.js`), the orchestrator's decision parsing and
round-robin fallback (`orchestrator.js`), and the chat manager's session turn
controller (`chatManager.js`: `continueConversation`,
`onAudioPlaybackComplete`, `createSession`, `deleteSession`).
Strings are processed over `List Char`; the JavaScript regular expressions are
embedded as the deterministic scanning functions they denote on their inputs.
The LLM provider and the Deepgram connection are abstracted as the data they
deliver (raw decision text, stream chunks, audio chunks); all control flow
around them is translated from the source.
-/

namespace MultiChat

/-- Whitespace test matching JavaScript `trim` and the regex class \s
    (the ASCII whitespace characters). -/
def jsIsSpace (c : Char) : Bool :=
  c = ' ' || c = '\t' || c = '\n' || c = '\r' || c = Char.ofNat 11 || c = Char.ofNat 12

/-- JavaScript `String.prototype.trim` on a character list. -/
def jsTrimL (cs : List Char) : List Char :=
  ((cs.dropWhile jsIsSpace).reverse.dropWhile jsIsSpace).reverse

/-- Regex class \w (and the redundant _ in `[\w_]`): ASCII letters, digits, underscore. -/
def isWordChar (c : Char) : Bool :=
  ('a' ≤ c && c ≤ 'z') || ('A' ≤ c && c ≤ 'Z') || ('0' ≤ c && c ≤ '9') || c = '_'

/-- ASCII upper-casing of one character (JavaScript `toUpperCase` on this data). -/
def jsToUpper (c : Char) : Char :=
  if 'a' ≤ c && c ≤ 'z' then Char.ofNat (c.toNat - 32) else c

/-- ASCII lower-casing of one character (JavaScript `toLowerCase` on this data). -/
def jsToLower (c : Char) : Char :=
  if 'A' ≤ c && c ≤ 'Z' then Char.ofNat (c.toNat + 32) else c

def toUpperL (cs : List Char) : List Char := cs.map jsToUpper

def toLowerL (cs : List Char) : List Char := cs.map jsToLower

/-- Does the second list start with the first (JavaScript `startsWith`)? -/
def startsWithL : List Char → List Char → Bool
  | [], _ => true
  | _ :: _, [] => false
  | n :: ns, h :: hs => n = h && startsWithL ns hs

/-- Substring test (JavaScript `includes`). -/
def containsL (needle : List Char) : List Char → Bool
  | [] => startsWithL needle []
  | c :: rest => startsWithL needle (c :: rest) || containsL needle rest

/-- An agent of the participant roster, as produced by `agentGenerator.js`
    (id = Name_Role, display name, designation, voice-gender tag). -/
structure Agent where
  id : String
  name : String
  designation : String
  gender : String
deriving DecidableEq

/-- One entry of a session's conversation log (`conversationMemory.js`):
    role tag, text content, and for assistant entries the speaking agent's id.
    The timestamp is not modeled (no claim mentions it). -/
structure Msg where
  role : String
  content : String
  aiId : Option String
deriving DecidableEq

/-- A turn decision as returned by `Orchestrator.decideAndGenerateResponse`:
    `speaker` is an agent id, "user" or "end"; `response` is the pre-generated
    utterance text when present; `shouldEnd` marks the embedded END: marker path. -/
structure Decision where
  speaker : String
  response : Option String
  shouldEnd : Bool
deriving DecidableEq

/-- The conversation-memory store: JavaScript `Map` of sessionId to message
    array, in insertion order. -/
abbrev Memory := List (String × List Msg)

/-- JavaScript `Map.prototype.get` on the memory store. -/
def memLookup : Memory → String → Option (List Msg)
  | [], _ => none
  | (k, v) :: rest, sid => if k = sid then some v else memLookup rest sid

/-- Replace the value stored at an existing key, keeping insertion order. -/
def memReplace : Memory → String → List Msg → Memory
  | [], _, _ => []
  | (k, v) :: rest, sid, msgs =>
    if k = sid then (k, msgs) :: memReplace rest sid msgs
    else (k, v) :: memReplace rest sid msgs

/-- JavaScript `Map.prototype.set`: update in place when the key exists,
    append otherwise. -/
def memSet (m : Memory) (sid : String) (msgs : List Msg) : Memory :=
  if (memLookup m sid).isSome then memReplace m sid msgs else m ++ [(sid, msgs)]

/-- `ConversationMemory.getMessages`: `this.memories.get(sessionId) || []`. -/
def getMessages (m : Memory) (sid : String) : List Msg :=
  (memLookup m sid).getD []

/-- `ConversationMemory.hasSession`: `this.memories.has(sessionId)`. -/
def hasSession (m : Memory) (sid : String) : Bool :=
  (memLookup m sid).isSome

/-- `ConversationMemory.addUserMessage`: push a user entry and re-set the key. -/
def addUserMessage (m : Memory) (sid content : String) : Memory :=
  memSet m sid (getMessages m sid ++ [⟨"user", content, none⟩])

/-- `ConversationMemory.addAssistantMessage`: `get(sessionId) || []`, push an
    assistant entry carrying the agent id, and `set` the key back. -/
def addAssistantMessage (m : Memory) (sid content aiId : String) : Memory :=
  memSet m sid (getMessages m sid ++ [⟨"assistant", content, some aiId⟩])

/-- The system message text built by `ConversationMemory.initializeSession`. -/
def initSystemContent (scenario userName userRole : String) : String :=
  "This is a practice session for " ++ userName ++ " who is practicing for: \"" ++
    scenario ++ "\".\nUser Role: " ++ userRole ++
    "\n\nThis is a natural conversation practice session. The conversation will flow naturally with agents and the user taking turns. All participants share the same conversation history and can see all previous messages."

/-- `ConversationMemory.initializeSession`: store a fresh log holding only the
    system message. -/
def initializeSession (m : Memory) (sid scenario userName userRole : String) : Memory :=
  memSet m sid [⟨"system", initSystemContent scenario userName userRole, none⟩]

/-- `ConversationMemory.clearSession`: `this.memories.delete(sessionId)`. -/
def clearSession : Memory → String → Memory
  | [], _ => []
  | (k, v) :: rest, sid =>
    if k = sid then clearSession rest sid else (k, v) :: clearSession rest sid

/-- `TTSService.createWavHeader`: the fixed 44-byte WAV header, byte for byte
    as listed in `ttsService.js` lines 37-51. -/
def createWavHeader : List Nat :=
  [0x52, 0x49, 0x46, 0x46,
   0x00, 0x00, 0x00, 0x00,
   0x57, 0x41, 0x56, 0x45,
   0x66, 0x6d, 0x74, 0x20,
   0x10, 0x00, 0x00, 0x00,
   0x01, 0x00,
   0x01, 0x00,
   0x80, 0xbb, 0x00, 0x00,
   0x00, 0xee, 0x02, 0x00,
   0x02, 0x00,
   0x10, 0x00,
   0x64, 0x61, 0x74, 0x61,
   0x00, 0x00, 0x00, 0x00]

/-- Little-endian 16-bit field of a byte list at offset `i`. -/
def le16 (bytes : List Nat) (i : Nat) : Nat :=
  bytes.getD i 0 + 256 * bytes.getD (i + 1) 0

/-- Little-endian 32-bit field of a byte list at offset `i`. -/
def le32 (bytes : List Nat) (i : Nat) : Nat :=
  bytes.getD i 0 + 256 * bytes.getD (i + 1) 0 + 65536 * bytes.getD (i + 2) 0 +
    16777216 * bytes.getD (i + 3) 0

/-- A callback fired by `TTSService.streamTextToSpeech` towards its caller:
    an audio chunk, the completion signal, or the error callback. -/
inductive TtsCallback where
  | audioChunk (bytes : List Nat)
  | complete
  | errored
deriving DecidableEq

/-- What the Deepgram connection delivers on one run: whether the connection
    opened, and the audio chunks it produced. -/
structure TtsOutcome where
  connected : Bool
  chunks : List (List Nat)
deriving DecidableEq

/-- `TTSService.streamTextToSpeech` (text is `Option String` since the caller
    may pass null): blank text short-circuits to `onComplete` without creating
    a connection; a failed connection fires only `onError`; otherwise the audio
    chunks stream and the completion signal is delivered exactly once (by the
    Flushed handler or by the 30-second timeout, both guarded by the `flushed`
    flag). The second component records whether `createTTSConnection` was
    invoked. The gender and voiceIndex arguments only select the provider
    voice model and do not affect the callback sequence. -/
def streamTextToSpeech (text : Option String) (gender : String) (voiceIndex : Nat)
    (tts : TtsOutcome) : List TtsCallback × Bool :=
  match text with
  | none => ([TtsCallback.complete], false)
  | some s =>
    if s = "" then ([TtsCallback.complete], false)
    else if jsTrimL s.data = [] then ([TtsCallback.complete], false)
    else if tts.connected then
      ((tts.chunks.map TtsCallback.audioChunk) ++ [TtsCallback.complete], true)
    else ([TtsCallback.errored], true)

/-- The regex `/^USER:?\s*$/i` from `orchestrator.js` line 134: the token USER
    (case-insensitive), an optional colon, then only whitespace to the end. -/
def userTurnTest (cs : List Char) : Bool :=
  if startsWithL ("USER".data) (toUpperL cs) then
    match cs.drop 4 with
    | [] => true
    | ':' :: rest => rest.all jsIsSpace
    | rest => rest.all jsIsSpace
  else false

/-- The single replace of `/^\s*\n+/` (line 153): when the leading whitespace
    run contains a newline, the match ends at the last newline of that run and
    is removed; otherwise nothing matches. -/
def stripLeadingNL (cs : List Char) : List Char :=
  let m := cs.takeWhile jsIsSpace
  if m.contains '\n' then
    (m.reverse.takeWhile (fun x => x ≠ '\n')).reverse ++ cs.drop m.length
  else cs

/-- Scanner for the global replace of `/\[[^\]]+\]:\s*/g` (line 157): at a
    `[`, the greedy `[^\]]+` reaches exactly the first `]`; the match needs a
    nonempty bracket content followed by `]:` and then swallows trailing
    whitespace; on failure the scan advances one character. Fuel is the length
    of the scanned list, which bounds the number of steps. -/
def stripLabelsGo : Nat → List Char → List Char
  | 0, cs => cs
  | _, [] => []
  | fuel + 1, c :: rest =>
    if c = '[' then
      match rest.takeWhile (fun x => x ≠ ']'), rest.drop (rest.takeWhile (fun x => x ≠ ']')).length with
      | _ :: _, ']' :: ':' :: rest2 => stripLabelsGo fuel (rest2.dropWhile jsIsSpace)
      | _, _ => c :: stripLabelsGo fuel rest
    else c :: stripLabelsGo fuel rest

def stripLabels (cs : List Char) : List Char := stripLabelsGo cs.length cs

/-- The anchored replace of `/^USER:\s*/i` (line 161). -/
def stripUserHead (cs : List Char) : List Char :=
  if startsWithL ("USER:".data) (toUpperL cs) then (cs.drop 5).dropWhile jsIsSpace else cs

/-- The anchored replace of `/\s*USER:\s*$/i` (line 162), computed from the
    reversed list. -/
def stripUserTail (cs : List Char) : List Char :=
  let r := cs.reverse.dropWhile jsIsSpace
  if startsWithL (":RESU".data) (toUpperL r) then ((r.drop 5).dropWhile jsIsSpace).reverse
  else cs

/-- Scanner for the global replace of `/\bUSER:\s*/gi` (line 163). The word
    boundary before U holds when the previous character is not a word
    character; after a removal the previously consumed character is a colon or
    whitespace, so the boundary flag stays false. -/
def stripUserGo : Nat → Bool → List Char → List Char
  | 0, _, cs => cs
  | _, _, [] => []
  | fuel + 1, prevWord, c :: rest =>
    if !prevWord && startsWithL ("USER:".data) (toUpperL (c :: rest)) then
      stripUserGo fuel false ((rest.drop 4).dropWhile jsIsSpace)
    else c :: stripUserGo fuel (isWordChar c) rest

def stripUserGlobal (cs : List Char) : List Char := stripUserGo cs.length false cs

/-- Group 1 of `/^(.*?)(?:\n?END:.*)?$/s` (line 174): the prefix before the
    first position where `END:` or a newline followed by `END:` starts, or the
    whole text when no such position exists. -/
def beforeEndMarker : List Char → List Char
  | [] => []
  | c :: rest =>
    if startsWithL ("END:".data) (c :: rest) || startsWithL ("\nEND:".data) (c :: rest) then []
    else c :: beforeEndMarker rest

/-- The match of `/^AGENT:([\w_]+)[\s\n]*(.*)$/s` (line 147): after the
    `AGENT:` marker, group 1 is the maximal nonempty run of word characters
    and group 2 is the remainder with the following whitespace run skipped. -/
def agentRegexMatch (cs : List Char) : Option (List Char × List Char) :=
  if startsWithL ("AGENT:".data) cs then
    let rest := cs.drop 6
    let idc := rest.takeWhile isWordChar
    if idc = [] then none
    else some (idc, (rest.drop idc.length).dropWhile jsIsSpace)
  else none

/-- JavaScript truthiness of `msg.aiId`: present and a nonempty string. -/
def jsTruthyId : Option String → Bool
  | none => false
  | some s => s ≠ ""

/-- `history.slice().reverse().find(msg => msg.role === 'assistant' && msg.aiId)?.aiId`
    from `Orchestrator.fallbackDecision`. -/
def lastAgentId (history : List Msg) : Option String :=
  match history.reverse.find? (fun m => decide (m.role = "assistant") && jsTruthyId m.aiId) with
  | some m => m.aiId
  | none => none

/-- Placeholder agent used only to express in-bounds list indexing with `getD`. -/
def dummyAgent : Agent := ⟨"", "", "", ""⟩

/-- JavaScript `agents.findIndex(a => a.id === aid)`: the index, or -1. -/
def jsFindIndex (agents : List Agent) (aid : String) : Int :=
  match agents.findIdx? (fun a => decide (a.id = aid)) with
  | some i => (i : Int)
  | none => -1

/-- `Orchestrator.fallbackDecision`: round-robin from the last agent speaker in
    the log; `findIndex` yields -1 when the id is absent, and
    `(lastIndex + 1) % agents.length` indexes the roster. -/
def fallbackDecision (agents : List Agent) (history : List Msg) : Decision :=
  if agents.length = 0 then ⟨"user", none, false⟩
  else
    match lastAgentId history with
    | some aid =>
      let lastIndex : Int := jsFindIndex agents aid
      let nextIndex : Nat := ((lastIndex + 1) % (agents.length : Int)).toNat
      ⟨(agents.getD nextIndex dummyAgent).id, none, false⟩
    | none => ⟨(agents.getD 0 dummyAgent).id, none, false⟩

/-- The response-parsing pipeline of `Orchestrator.decideAndGenerateResponse`
    (lines 124-206), taking the provider's raw decision text as input: the END
    and USER markers, the AGENT match with the label-annotation and USER-token
    cleanup of the body, the embedded END: check, id validation, the
    last-resort substring scan for a roster id or name, and the round-robin
    fallback in all remaining cases. -/
def decideAndGenerateResponse (raw : String) (agents : List Agent)
    (fullHistory : List Msg) : Decision :=
  let trimmed := jsTrimL raw.data
  if startsWithL ("END:".data) trimmed || trimmed = "END".data then ⟨"end", none, false⟩
  else if userTurnTest trimmed then ⟨"user", none, false⟩
  else if toUpperL (jsTrimL trimmed) = "USER".data || toUpperL (jsTrimL trimmed) = "USER:".data then
    ⟨"user", none, false⟩
  else
    match agentRegexMatch trimmed with
    | some (idc, body) =>
      let agentId := String.mk (jsTrimL idc)
      let r1 := jsTrimL body
      let r2 := jsTrimL (stripLeadingNL r1)
      let r3 := jsTrimL (stripLabels r2)
      let r4 := jsTrimL (stripUserHead r3)
      let r5 := jsTrimL (stripUserTail r4)
      let r6 := jsTrimL (stripUserGlobal r5)
      if r6 = [] || toUpperL (jsTrimL r6) = "USER".data || toUpperL (jsTrimL r6) = "USER:".data then
        fallbackDecision agents fullHistory
      else if containsL ("END:".data) r6 || containsL ("\nEND:".data) trimmed then
        ⟨agentId, some (String.mk (jsTrimL (beforeEndMarker r6))), true⟩
      else if agents.any (fun a => decide (a.id = agentId)) then
        ⟨agentId, some (String.mk r6), false⟩
      else fallbackDecision agents fullHistory
    | none =>
      match agents.find? (fun a =>
          containsL (toLowerL a.id.data) (toLowerL trimmed) ||
          containsL (toLowerL a.name.data) (toLowerL trimmed)) with
      | some a => ⟨a.id, some (String.mk (jsTrimL (stripLabels trimmed))), false⟩
      | none => fallbackDecision agents fullHistory

/-- The per-session state held by `ChatManager` (`this.sessions` values): the
    roster and the three turn-control flags. At creation
    `waitingForAudioComplete` and `currentSpeakingAgentId` are absent
    (undefined), embedded as `false` and `none`. -/
structure Session where
  agents : List Agent
  isProcessing : Bool
  waitingForAudioComplete : Bool
  currentSpeakingAgentId : Option String
deriving DecidableEq

/-- The session record stored by `ChatManager.createSession` (line 64):
    `isProcessing: false`, audio-wait flag and current speaker unset. -/
def createSession (agents : List Agent) : Session :=
  ⟨agents, false, false, none⟩

/-- The typed events the controller emits through the per-session callbacks
    (`onStreamChunk`, `onStreamComplete`, `onError`), restricted to the fields
    the claims mention. -/
inductive Event where
  | user_turn
  | ai_thinking
  | ai_response_start (aiId : String)
  | ai_response_chunk (aiId : String) (chunk : String)
  | tts_first_audio (aiId : String)
  | ai_audio_chunk (aiId : String) (audioBuffer : List Nat)
  | ai_audio_end (aiId : String)
  | ai_response_end (aiId : String) (fullMessage : String)
  | conversation_ended
  | error_event (message : String)
deriving DecidableEq

/-- One run of `OpenAIService.streamChatCompletion` as seen through its
    callbacks: either the chunks arrive and `onComplete` fires with their
    concatenation, or the chunks delivered so far are followed by `onError`
    and no completion (the service catches the exception and resolves). -/
inductive StreamOutcome where
  | success (chunks : List String)
  | failure (chunks : List String) (message : String)
deriving DecidableEq

/-- The external data one `continueConversation` call consumes: the
    orchestrator's decision, the utterance stream, the TTS connection run. -/
structure Env where
  decision : Decision
  stream : StreamOutcome
  tts : TtsOutcome
deriving DecidableEq

/-- `fullResponse += chunk` accumulation over a chunk list. -/
def joinChunks (chunks : List String) : String :=
  chunks.foldl (fun acc c => acc ++ c) ""

/-- The streaming branch of `continueConversation` (lines 196-221): events
    emitted, the accumulated `fullResponse`, and the value of `isProcessing`
    afterwards (the error callback resets it to false and execution falls
    through). -/
def streamPhase (aiId : String) : StreamOutcome → List Event × String × Bool
  | StreamOutcome.success chunks =>
    (chunks.map (fun c => Event.ai_response_chunk aiId c), joinChunks chunks, true)
  | StreamOutcome.failure chunks msg =>
    (chunks.map (fun c => Event.ai_response_chunk aiId c) ++ [Event.error_event msg],
      joinChunks chunks, false)

/-- The TTS callback handlers installed by `continueConversation`
    (lines 233-279): the first audio chunk triggers `tts_first_audio` and is
    sent with the WAV header prefixed; later chunks are sent raw; the
    completion signal emits `ai_audio_end`; the TTS error callback only logs. -/
def ttsChunkHandler (aiId : String) : Bool → List TtsCallback → List Event
  | _, [] => []
  | first, TtsCallback.audioChunk b :: rest =>
    if first then
      Event.tts_first_audio aiId :: Event.ai_audio_chunk aiId (createWavHeader ++ b) ::
        ttsChunkHandler aiId false rest
    else Event.ai_audio_chunk aiId b :: ttsChunkHandler aiId false rest
  | first, TtsCallback.complete :: rest => Event.ai_audio_end aiId :: ttsChunkHandler aiId first rest
  | first, TtsCallback.errored :: rest => ttsChunkHandler aiId first rest

/-- `ChatManager.continueConversation` (lines 98-326) for one session: drops
    the trigger while `isProcessing` or `waitingForAudioComplete` is set; on a
    user decision resets `isProcessing` and emits `user_turn`; on an unknown
    speaker id (including the id "end", which is never a roster id) resets
    `isProcessing` and returns; otherwise emits the thinking/start events,
    delivers the pre-generated text or streams it, unconditionally appends the
    accumulated text to the conversation memory, runs TTS, emits
    `ai_response_end`, sets the audio-wait flag and current speaker, and on
    `speaker = "end"` or `shouldEnd` emits `conversation_ended` and clears all
    flags. Returns the session state, the memory, and the emitted events. -/
def continueConversation (s : Session) (mem : Memory) (sid : String) (env : Env) :
    Session × Memory × List Event :=
  if s.isProcessing then (s, mem, [])
  else if s.waitingForAudioComplete then (s, mem, [])
  else
    let d := env.decision
    if d.speaker = "user" then
      (⟨s.agents, false, s.waitingForAudioComplete, s.currentSpeakingAgentId⟩, mem,
        [Event.user_turn])
    else
      match s.agents.find? (fun a => decide (a.id = d.speaker)) with
      | none => (⟨s.agents, false, s.waitingForAudioComplete, s.currentSpeakingAgentId⟩, mem, [])
      | some agent =>
        let aiId := d.speaker
        let tp : List Event × String × Bool :=
          match d.response with
          | some r =>
            if jsTrimL r.data ≠ [] then ([Event.ai_response_chunk aiId r], r, true)
            else streamPhase aiId env.stream
          | none => streamPhase aiId env.stream
        let fullResponse := tp.2.1
        let mem1 := addAssistantMessage mem sid fullResponse aiId
        let agentGender := if agent.gender = "" then "female" else agent.gender
        let agentIndex : Int := jsFindIndex s.agents aiId
        let voiceIndex : Nat := if (0 : Int) ≤ agentIndex then agentIndex.toNat % 3 else 0
        let ttsRes := streamTextToSpeech (some fullResponse) agentGender voiceIndex env.tts
        let events :=
          [Event.ai_thinking, Event.ai_response_start aiId] ++ tp.1 ++
            ttsChunkHandler aiId true ttsRes.1 ++ [Event.ai_response_end aiId fullResponse]
        if d.speaker = "end" ∨ d.shouldEnd then
          (⟨s.agents, false, false, none⟩, mem1, events ++ [Event.conversation_ended])
        else
          (⟨s.agents, tp.2.2, true, some aiId⟩, mem1, events)

/-- `ChatManager.onAudioPlaybackComplete` (lines 333-355): when the session is
    awaiting audio and the acknowledged agent is the tracked speaker, clear
    all three flags and schedule the next turn trigger (the Bool); otherwise
    log a warning and change nothing. -/
def onAudioPlaybackComplete (s : Session) (aiId : String) : Session × Bool :=
  if s.waitingForAudioComplete ∧ s.currentSpeakingAgentId = some aiId then
    (⟨s.agents, false, false, none⟩, true)
  else (s, false)

/-- `ChatManager.processUserMessage`: emit `ai_thinking`, append the user
    message to the memory, then run `continueConversation`. -/
def processUserMessage (s : Session) (mem : Memory) (sid message : String) (env : Env) :
    Session × Memory × List Event :=
  let mem1 := addUserMessage mem sid message
  let r := continueConversation s mem1 sid env
  (r.1, r.2.1, Event.ai_thinking :: r.2.2)

/-- The `ChatManager.sessions` map. -/
abbrev SessionsMap := List (String × Session)

/-- JavaScript `Map.prototype.delete` on the sessions map. -/
def sessionsDelete : SessionsMap → String → SessionsMap
  | [], _ => []
  | (k, v) :: rest, sid =>
    if k = sid then sessionsDelete rest sid else (k, v) :: sessionsDelete rest sid

/-- `ChatManager.deleteSession`: remove the session entry and clear its
    conversation memory. Nothing else is touched: no in-flight callback is
    invalidated. -/
def deleteSession (sessions : SessionsMap) (mem : Memory) (sid : String) :
    SessionsMap × Memory :=
  (sessionsDelete sessions sid, clearSession mem sid)

/-- The spec's flag invariant: the tracked current speaker is non-null exactly
    when the audio-wait flag is set. -/
def speakerInv (s : Session) : Prop :=
  s.currentSpeakingAgentId.isSome = s.waitingForAudioComplete

/-- The payloads of the `ai_audio_chunk` events in an event list. -/
def audioPayloads (events : List Event) : List (List Nat) :=
  events.filterMap (fun e =>
    match e with
    | Event.ai_audio_chunk _ b => some b
    | _ => none)

/-- Concrete roster used by the concrete-input theorems below. -/
def aliceAgent : Agent := ⟨"Alice_Coach", "Alice", "Coach", "female"⟩

def bobAgent : Agent := ⟨"Bob_Thompson_HRManager", "Bob Thompson", "HR Manager", "male"⟩

def memEx : Memory := initializeSession [] "s1" "mock interview" "Mahesh" "Developer"

def sessionEx : Session := createSession [aliceAgent, bobAgent]

def envEnd : Env := ⟨⟨"end", none, false⟩, StreamOutcome.success [], ⟨true, []⟩⟩

def envC4 : Env :=
  ⟨⟨"Alice_Coach", none, false⟩, StreamOutcome.failure ["Hello, I th"] "Request failed",
    ⟨false, []⟩⟩

def envUser : Env := ⟨⟨"user", none, false⟩, StreamOutcome.success [], ⟨true, []⟩⟩

/-- C1: a turn trigger (`continueConversation`) arriving while the session is
    busy — `isProcessing` or `waitingForAudioComplete` set — returns without
    appending to the log, without emitting any event and without changing any
    session flag; it is dropped, never queued. -/
theorem c1_busy_trigger_dropped (s : Session) (mem : Memory) (sid : String) (env : Env)
    (h : s.isProcessing = true ∨ s.waitingForAudioComplete = true) :
    continueConversation s mem sid env = (s, mem, []) := by
  rcases h with h | h
  · simp [continueConversation, h]
  · cases hp : s.isProcessing
    · simp [continueConversation, hp, h]
    · simp [continueConversation, hp]

theorem c1_witness :
    continueConversation ⟨[aliceAgent], true, false, none⟩ memEx "s1" envUser
        = (⟨[aliceAgent], true, false, none⟩, memEx, []) ∧
      continueConversation ⟨[aliceAgent], false, true, some "Alice_Coach"⟩ memEx "s1" envUser
        = (⟨[aliceAgent], false, true, some "Alice_Coach"⟩, memEx, []) :=
  ⟨c1_busy_trigger_dropped _ _ _ _ (Or.inl rfl),
    c1_busy_trigger_dropped _ _ _ _ (Or.inr rfl)⟩

/-- C2: in every reachable state the tracked current speaker is non-null iff
    the waiting-for-audio flag is set, and session creation,
    `continueConversation` (including its error paths and the
    end-of-conversation path) and `onAudioPlaybackComplete` all preserve this
    equivalence. -/
theorem c2_speaker_flag_invariant :
    (∀ agents, speakerInv (createSession agents)) ∧
      (∀ s mem sid env, speakerInv s → speakerInv (continueConversation s mem sid env).1) ∧
      (∀ s aiId, speakerInv s → speakerInv (onAudioPlaybackComplete s aiId).1) := by
  refine ⟨fun agents => rfl, ?_, ?_⟩
  · intro s mem sid env h
    by_cases hp : s.isProcessing = true
    · simpa [continueConversation, hp] using h
    by_cases hw : s.waitingForAudioComplete = true
    · simpa [continueConversation, hp, hw] using h
    by_cases hu : env.decision.speaker = "user"
    · simpa [continueConversation, hp, hw, hu, speakerInv] using h
    cases hf : s.agents.find? (fun a => decide (a.id = env.decision.speaker)) with
    | none => simpa [continueConversation, hp, hw, hu, hf, speakerInv] using h
    | some agent =>
      by_cases he : env.decision.speaker = "end" ∨ env.decision.shouldEnd = true
      · simp [continueConversation, hp, hw, hu, hf, he, speakerInv]
      · simp [continueConversation, hp, hw, hu, hf, he, speakerInv]
  · intro s aiId h
    unfold onAudioPlaybackComplete
    split
    · rfl
    · exact h

theorem c2_witness :
    speakerInv (continueConversation sessionEx memEx "s1" envC4).1 ∧
      speakerInv (onAudioPlaybackComplete ⟨[aliceAgent], true, true, some "Alice_Coach"⟩ "Alice_Coach").1 :=
  ⟨c2_speaker_flag_invariant.2.1 sessionEx memEx "s1" envC4 rfl,
    c2_speaker_flag_invariant.2.2 ⟨[aliceAgent], true, true, some "Alice_Coach"⟩ "Alice_Coach"
      rfl⟩

/-- C3: the claim says a decision `speaker = "end"` makes the controller emit
    a `conversation_ended` event. On the code, the orchestrator's raw "END:"
    response does yield `{speaker := "end"}`, but `continueConversation` then
    fails the roster lookup for the id "end" (roster ids always contain an
    underscore) and returns from the unknown-agent guard: no event at all is
    emitted, even though the dead check `decision.speaker === 'end'` further
    down documents the intent to emit `conversation_ended` there. -/
theorem c3_end_decision_dropped :
    decideAndGenerateResponse "END:" [aliceAgent, bobAgent] [] = ⟨"end", none, false⟩ ∧
      continueConversation sessionEx memEx "s1" envEnd = (sessionEx, memEx, []) ∧
      Event.conversation_ended ∉ (continueConversation sessionEx memEx "s1" envEnd).2.2 := by
  refine ⟨by decide, by decide, by decide⟩

/-- C4: the claim says a mid-stream failure records nothing in the log. On the
    code, `streamChatCompletion` catches the error, fires `onError` and
    resolves, so `continueConversation` falls through and
    `addAssistantMessage` records the partially accumulated text: after the
    chunk "Hello, I th" and then the error callback, the log holds an entry
    with exactly that partial text (and the error event has been emitted). -/
theorem c4_partial_stream_recorded :
    getMessages (continueConversation sessionEx memEx "s1" envC4).2.1 "s1"
        = [⟨"system", initSystemContent "mock interview" "Mahesh" "Developer", none⟩,
           ⟨"assistant", "Hello, I th", some "Alice_Coach"⟩] ∧
      Event.error_event "Request failed" ∈ (continueConversation sessionEx memEx "s1" envC4).2.2 := by
  refine ⟨by decide, by decide⟩

theorem memLookup_clear (m : Memory) (sid : String) :
    memLookup (clearSession m sid) sid = none := by
  induction m with
  | nil => rfl
  | cons p rest ih =>
    obtain ⟨k, v⟩ := p
    by_cases hk : k = sid
    · simp [clearSession, hk, ih]
    · simp [clearSession, hk, memLookup, ih]

theorem memLookup_append_right (m : Memory) (sid : String) (v : List Msg)
    (h : memLookup m sid = none) : memLookup (m ++ [(sid, v)]) sid = some v := by
  induction m with
  | nil => simp [memLookup]
  | cons p rest ih =>
    obtain ⟨k, w⟩ := p
    by_cases hk : k = sid
    · simp [memLookup, hk] at h
    · simp only [memLookup, hk, List.cons_append, if_neg hk] at h ⊢
      exact ih h

/-- C5 counterexample: the claim says a pending callback arriving after
    `deleteSession` is a no-op and in particular a late log append does not
    recreate the deleted session's log. Concretely, deleting session "s1" and
    then running the pending `addAssistantMessage` callback recreates the
    memory entry for "s1" containing the late message. -/
theorem c5_late_append_not_noop :
    hasSession
        (addAssistantMessage (deleteSession [("s1", sessionEx)] memEx "s1").2 "s1"
          "Thanks for sharing." "Alice_Coach") "s1" = true ∧
      getMessages
        (addAssistantMessage (deleteSession [("s1", sessionEx)] memEx "s1").2 "s1"
          "Thanks for sharing." "Alice_Coach") "s1"
        = [⟨"assistant", "Thanks for sharing.", some "Alice_Coach"⟩] := by
  refine ⟨by decide, by decide⟩

/-- C5 amended: `deleteSession` removes the session entry and its conversation
    log, but in-flight callbacks are not invalidated — a pending log-append
    callback for the deleted session id executes normally and recreates that
    session's conversation log, holding exactly the late entry. -/
theorem c5_deleted_session_log_recreated (sessions : SessionsMap) (mem : Memory)
    (sid content aid : String) :
    hasSession (deleteSession sessions mem sid).2 sid = false ∧
      getMessages (addAssistantMessage (deleteSession sessions mem sid).2 sid content aid) sid
        = [⟨"assistant", content, some aid⟩] := by
  have h := memLookup_clear mem sid
  constructor
  · simp [hasSession, deleteSession, h]
  · simp only [deleteSession, addAssistantMessage, getMessages, memSet, h, Option.isSome_none,
      Bool.false_eq_true, if_false, Option.getD_none, List.nil_append]
    rw [memLookup_append_right _ _ _ h]
    rfl

/-- C6: processing a playback acknowledgement is idempotent and
    speaker-checked — after an `audio_playback_complete` for the tracked
    speaker has been processed, a second one for the same speaker changes
    nothing and schedules no trigger; and an acknowledgement naming any agent
    other than the tracked speaker changes nothing and schedules no trigger. -/
theorem c6_audio_ack_idempotent :
    (∀ s aiId, s.waitingForAudioComplete = true → s.currentSpeakingAgentId = some aiId →
        onAudioPlaybackComplete (onAudioPlaybackComplete s aiId).1 aiId
          = ((onAudioPlaybackComplete s aiId).1, false)) ∧
      (∀ s aiId, s.currentSpeakingAgentId ≠ some aiId →
        onAudioPlaybackComplete s aiId = (s, false)) := by
  constructor
  · intro s aiId hw hc
    simp [onAudioPlaybackComplete, hw, hc]
  · intro s aiId hc
    have : ¬(s.waitingForAudioComplete = true ∧ s.currentSpeakingAgentId = some aiId) :=
      fun h => hc h.2
    simp [onAudioPlaybackComplete, this]

theorem c6_witness :
    onAudioPlaybackComplete
        (onAudioPlaybackComplete ⟨[aliceAgent], true, true, some "Alice_Coach"⟩ "Alice_Coach").1
        "Alice_Coach"
      = ((onAudioPlaybackComplete ⟨[aliceAgent], true, true, some "Alice_Coach"⟩ "Alice_Coach").1,
          false) ∧
      onAudioPlaybackComplete ⟨[aliceAgent], true, true, some "Alice_Coach"⟩ "Bob_Thompson_HRManager"
        = (⟨[aliceAgent], true, true, some "Alice_Coach"⟩, false) :=
  ⟨c6_audio_ack_idempotent.1 _ _ rfl rfl, c6_audio_ack_idempotent.2 _ _ (by decide)⟩

/-- C7: the fallback decision is deterministic round-robin — when the most
    recent agent speaker in the log sits at index `i` of the roster, the agent
    at index `(i + 1) % length` is selected with no pre-generated text; when
    no agent has spoken yet, the first roster entry is selected with no
    pre-generated text. -/
theorem c7_fallback_round_robin :
    (∀ agents history aid i, agents ≠ [] → lastAgentId history = some aid →
        agents.findIdx? (fun a => decide (a.id = aid)) = some i →
        fallbackDecision agents history
          = ⟨(agents.getD ((i + 1) % agents.length) dummyAgent).id, none, false⟩) ∧
      (∀ agents history, agents ≠ [] → lastAgentId history = none →
        fallbackDecision agents history = ⟨(agents.getD 0 dummyAgent).id, none, false⟩) := by
  constructor
  · intro agents history aid i hne hlast hidx
    have hlen : agents.length ≠ 0 := fun h => hne (List.length_eq_zero.mp h)
    have hcast : (((i : Int) + 1) % (agents.length : Int)).toNat = (i + 1) % agents.length := by
      have h1 : ((i : Int) + 1) = ((i + 1 : Nat) : Int) := by push_cast; ring
      rw [h1, ← Int.natCast_mod, Int.toNat_natCast]
    simp only [fallbackDecision, jsFindIndex, hlast, hidx, hlen, if_false, hcast]
  · intro agents history hne hlast
    have hlen : agents.length ≠ 0 := fun h => hne (List.length_eq_zero.mp h)
    simp only [fallbackDecision, hlast, hlen, if_false]

theorem c7_witness :
    fallbackDecision [aliceAgent, bobAgent]
        [⟨"system", "ctx", none⟩, ⟨"assistant", "Tell me about yourself.", some "Alice_Coach"⟩]
        = ⟨"Bob_Thompson_HRManager", none, false⟩ ∧
      fallbackDecision [aliceAgent, bobAgent] [] = ⟨"Alice_Coach", none, false⟩ := by
  constructor
  · have h := c7_fallback_round_robin.1 [aliceAgent, bobAgent]
      [⟨"system", "ctx", none⟩, ⟨"assistant", "Tell me about yourself.", some "Alice_Coach"⟩]
      "Alice_Coach" 0 (by decide) (by decide) (by decide)
    rw [h]; decide
  · have h := c7_fallback_round_robin.2 [aliceAgent, bobAgent] [] (by decide) (by decide)
    rw [h]; decide

/-- C8: parsing the raw decision text "AGENT:Alice_Coach", a newline, and
    "[Alice - Alice_Coach]: Good job" against a roster containing the agent
    id Alice_Coach yields speaker Alice_Coach with utterance text exactly
    "Good job" — the leaked square-bracket speaker-label annotation is
    stripped from the body. -/
theorem c8_label_annotation_stripped :
    decideAndGenerateResponse "AGENT:Alice_Coach\n[Alice - Alice_Coach]: Good job"
        [aliceAgent] [] = ⟨"Alice_Coach", some "Good job", false⟩ := by
  decide

theorem audioPayloads_rest (aiId : String) (cs : List (List Nat)) :
    audioPayloads
        (ttsChunkHandler aiId false (cs.map TtsCallback.audioChunk ++ [TtsCallback.complete]))
      = cs := by
  induction cs with
  | nil => rfl
  | cons c cs ih => simpa [ttsChunkHandler, audioPayloads] using ih

/-- C9: the claim says the 44-byte header declares byte-rate and block-align
    consistent with mono 16-bit 48 kHz PCM (byte rate 96000 = 48000 × 2 × 1).
    The header's framing is as claimed — 44 bytes, PCM format 1, 1 channel,
    48000 Hz, 16 bits, block align 2, zero length placeholders, and only the
    first emitted chunk is prefixed with it — but the byte-rate field holds
    192000 (bytes 0x00 0xEE 0x02 0x00), not 96000, even though the code's own
    comment on those bytes says "Byte rate (96000)". -/
theorem c9_wav_header_byte_rate_wrong :
    createWavHeader.length = 44 ∧
      le16 createWavHeader 20 = 1 ∧
      le16 createWavHeader 22 = 1 ∧
      le32 createWavHeader 24 = 48000 ∧
      le16 createWavHeader 32 = 2 ∧
      le16 createWavHeader 34 = 16 ∧
      le32 createWavHeader 4 = 0 ∧
      le32 createWavHeader 40 = 0 ∧
      le32 createWavHeader 28 = 192000 ∧
      le32 createWavHeader 28 ≠ 48000 * (16 / 8) * 1 ∧
      (∀ aiId c cs,
        audioPayloads (ttsChunkHandler aiId true
            ((c :: cs).map TtsCallback.audioChunk ++ [TtsCallback.complete]))
          = (createWavHeader ++ c) :: cs) := by
  refine ⟨by decide, by decide, by decide, by decide, by decide, by decide, by decide, by decide,
    by decide, by decide, ?_⟩
  intro aiId c cs
  simpa [ttsChunkHandler, audioPayloads] using audioPayloads_rest aiId cs

/-- C10: a speech-renderer call whose text is null, empty or whitespace-only
    fires the completion callback immediately and exactly once, opens no TTS
    connection and emits zero audio chunks; through the controller's handlers
    this produces exactly an `ai_audio_end` event, with no `tts_first_audio`
    and no `ai_audio_chunk`. -/
theorem c10_blank_text_skips_tts (text : Option String) (gender : String) (voiceIndex : Nat)
    (tts : TtsOutcome)
    (h : text = none ∨ ∃ s, text = some s ∧ jsTrimL s.data = []) :
    streamTextToSpeech text gender voiceIndex tts = ([TtsCallback.complete], false) ∧
      ∀ aiId, ttsChunkHandler aiId true [TtsCallback.complete] = [Event.ai_audio_end aiId] := by
  constructor
  · rcases h with h | ⟨s, rfl, hs⟩
    · rw [h]; rfl
    · by_cases he : s = ""
      · simp [streamTextToSpeech, he]
      · simp [streamTextToSpeech, he, hs]
  · intro aiId; rfl

theorem c10_witness :
    streamTextToSpeech (some "   ") "female" 0 ⟨true, [[1, 2, 3]]⟩
      = ([TtsCallback.complete], false) :=
  (c10_blank_text_skips_tts (some "   ") "female" 0 ⟨true, [[1, 2, 3]]⟩
    (Or.inr ⟨"   ", rfl, by decide⟩)).1

end MultiChat
